import Mathlib

/-
Verification of the task-processing pipeline of the patentswithcode repository
(src/code-generator).  The Python sources are shallowly embedded: each external
effect (Claude generation call, E2B sandbox operation, S3 upload, SQS save)
is an oracle field of an environment record holding the outcome the external
world would produce (`Except` models a Python call that either returns or
raises), and the orchestrator functions mirror the Python control flow
(try / except / finally) over those oracles.
-/

namespace PWC

/-- Python exception value: `typeError` models the TypeError raised by slicing
a non-subscriptable value, `exc` any other Exception carrying its message. -/
inductive PyErr where
  | typeError
  | exc (msg : String)
deriving DecidableEq, Repr

/-- String form of an exception, as Python's `str(e)`. -/
def PyErr.toMessage : PyErr → String
  | .typeError => "TypeError: object is not subscriptable"
  | .exc m => m

/-- Values a task dictionary can hold (the repository's messages carry JSON
strings; an integer value exercises the non-string case). -/
inductive PyVal where
  | vstr (s : String)
  | vint (n : Int)
deriving DecidableEq, Repr

/-- Python f-string rendering of a value. -/
def PyVal.render : PyVal → String
  | .vstr s => s
  | .vint n => toString n

/-- A task dictionary as consumed by `process_task`: the two keys the code
reads, each possibly absent (`task_data.get`). -/
structure TaskData where
  specification : Option PyVal
  task_id : Option PyVal
deriving DecidableEq, Repr

/-- Result of `sandbox.commands.run`: stdout, stderr and the exit code. -/
structure CmdResult where
  stdout : String
  stderr : String
  exit_code : Int
deriving DecidableEq, Repr

/-- Result Record returned by the orchestrators.  Field set is the union of
the keys the Python dictionaries carry; `none` models an absent key (the
completed record of e2b_simple has no `error` key, the failed record has no
`files_created`, `s3_url`, `local_archive` or `execution_output` keys, and an
invalid-JSON failure record has no `task_id`). -/
structure ResultRecord where
  task_id : Option String
  status : String
  specification : Option PyVal
  error : Option String
  files_created : Option (List String)
  s3_url : Option String
  local_archive : Option String
  execution_output : Option String
  timestamp : String
deriving DecidableEq, Repr

/-- Status projection of an `Except`-wrapped record: `none` when an exception
escaped, `some status` when a record was returned. -/
def recStatus : Except PyErr ResultRecord → Option String
  | .ok r => some r.status
  | .error _ => none

/-- True when a Python exception escaped the call. -/
def escaped : Except PyErr ResultRecord → Bool
  | .ok _ => false
  | .error _ => true

/-- Evaluating `specification[:100]` inside the opening log f-string of
`process_task`: defined on strings, raises TypeError otherwise (this line runs
before the try block). -/
def sliceCheck : PyVal → Except PyErr Unit
  | .vstr _ => .ok ()
  | .vint _ => .error .typeError

/-- The task dictionary's specification value is absent or a string. -/
def specIsString (td : TaskData) : Prop :=
  ∀ v, td.specification = some v → ∃ s, v = PyVal.vstr s

instance (td : TaskData) : Decidable (specIsString td) :=
  match h : td.specification with
  | none => .isTrue (fun _ hv => by rw [h] at hv; cases hv)
  | some (.vstr s) =>
    .isTrue (fun _ hv => by
      rw [h] at hv
      exact ⟨s, (Option.some_inj.mp hv).symm⟩)
  | some (.vint _) =>
    .isFalse (fun hc => by rcases hc _ h with ⟨s, hs⟩; cases hs)

/- String helpers mirroring the Python operations used by the sources. -/

/-- Whether the first char list begins the second (char-by-char compare). -/
def charListLeads : List Char → List Char → Bool
  | [], _ => true
  | _ :: _, [] => false
  | a :: as, b :: bs => a == b && charListLeads as bs

/-- Auxiliary scan for substring containment. -/
def containsAux (needle : List Char) : List Char → Bool
  | [] => charListLeads needle []
  | c :: cs => charListLeads needle (c :: cs) || containsAux needle cs

/-- Python's `needle in hay` substring test (also models `grep -v` pattern
matching on a fixed literal). -/
def strContains (hay needle : String) : Bool :=
  containsAux needle.toList hay.toList

/-- Python's str.startswith (character-list comparison). -/
def strStarts (s pre : String) : Bool :=
  charListLeads pre.toList s.toList

/-- Python's str.endswith (character-list comparison). -/
def strEnds (s suf : String) : Bool :=
  charListLeads suf.toList.reverse s.toList.reverse

/-- Python's s[n:] slicing: drop the first n characters. -/
def strDrop (s : String) (n : Nat) : String :=
  String.mk (s.toList.drop n)

/-- Whitespace characters stripped by Python's str.strip. -/
def isWS (c : Char) : Bool :=
  c = ' ' || c = '\t' || c = '\n' || c = '\r'

/-- Python's str.strip: drop leading and trailing whitespace. -/
def strTrim (s : String) : String :=
  String.mk (((s.toList.dropWhile isWS).reverse.dropWhile isWS).reverse)

/-- Accumulator pass of the newline split. -/
def splitLinesAux : List Char → List Char → List String
  | [], acc => [String.mk acc.reverse]
  | c :: cs, acc =>
    if c = '\n' then String.mk acc.reverse :: splitLinesAux cs []
    else splitLinesAux cs (c :: acc)

/-- Python's split on a newline separator. -/
def splitLines (s : String) : List String :=
  splitLinesAux s.toList []

/-- Lexicographic comparison of strings by character code, the order `sort`
would use; the spec's "lexicographic by path". -/
def charListLe : List Char → List Char → Bool
  | [], _ => true
  | _ :: _, [] => false
  | a :: as, b :: bs =>
    if a.toNat < b.toNat then true
    else if a.toNat = b.toNat then charListLe as bs
    else false

/-- String lexicographic less-or-equal. -/
def strLe (a b : String) : Bool :=
  charListLe a.toList b.toList

/-- Whether a list of paths is sorted lexicographically. -/
def lexSorted : List String → Bool
  | [] => true
  | [_] => true
  | a :: b :: rest => strLe a b && lexSorted (b :: rest)

/-- Parsing command stdout into a file list, as
`[f.strip() for f in stdout.strip().split('\n') if f.strip()]` guarded by
stdout truthiness. -/
def parseLines (s : String) : List String :=
  if s = "" then []
  else ((splitLines (strTrim s)).map strTrim).filter (fun x => x ≠ "")

/- Archiver: SimpleE2BGenerator._create_local_archive (e2b_simple.py). -/

/-- A tar command built by the archiver: either the explicit list of cleaned
artifact paths (minus the generation script) or the whole-working-directory
command that excludes the archive file and the generation script. -/
inductive TarCmd where
  | explicitPaths (files : List String)
  | wholeDir
deriving DecidableEq, Repr

/-- Sandbox commands the archiver issues, in order. -/
inductive ArchStep where
  | tar (c : TarCmd)
  | checkExists
  | enumerateDir
  | fallbackTar (files : List String)
  | download
deriving DecidableEq, Repr

/-- Oracle outcomes for the archiver's external calls. -/
structure ArchiveEnv where
  tarRun : Except PyErr CmdResult
  checkRun : Except PyErr CmdResult
  lsRun : Except PyErr CmdResult
  fallbackTarRun : Except PyErr CmdResult
  makedirs : Except PyErr Unit
  openLocal : Except PyErr Unit
  b64Run : Except PyErr CmdResult
  b64decode : Except PyErr Unit
deriving Repr

/-- Stripping the working-directory marker from a collected path
(drop the first five characters when the path starts with it). -/
def cleanName (f : String) : String :=
  if strStarts f ("/tmp/") then strDrop f 5 else f

/-- The fallback enumeration parse: strip each line, drop empties,
the generation script, the archive name, and the dot entries. -/
def actualFilesOf (stdout archiveName : String) : List String :=
  ((splitLines (strTrim stdout)).map strTrim).filter
    (fun x => x != "" && x != "generate.py" && x != archiveName && x != "." && x != "..")

/-- Choice of the first tar command, from the branching at the top of
the archiver: whole-directory when no files were collected or only the
generation script was, else exactly the cleaned paths minus the script. -/
def primaryTarCmd (files : List String) : TarCmd :=
  if files = [] then .wholeDir
  else
    let clean := files.map cleanName
    if clean = ["generate.py"] ∨ clean = [] then .wholeDir
    else .explicitPaths (clean.filter (fun f => f ≠ "generate.py"))

/-- The fallback suite run when the post-hoc existence check reports no
archive (non-zero ls exit or empty output): enumerate the working directory,
and when the filtered enumeration is non-empty re-run tar over exactly the
enumerated files.  Returns a raised outcome (if any) and the steps taken. -/
def archiveFallback (env : ArchiveEnv) (archiveName : String) :
    Option PyErr × List ArchStep :=
  match env.lsRun with
  | .error e => (some e, [.enumerateDir])
  | .ok ls =>
    if ls.stdout ≠ "" then
      let actual := actualFilesOf ls.stdout archiveName
      if actual ≠ [] then
        match env.fallbackTarRun with
        | .error e => (some e, [.enumerateDir, .fallbackTar actual])
        | .ok _ => (none, [.enumerateDir, .fallbackTar actual])
      else (none, [.enumerateDir])
    else (none, [.enumerateDir])

/-- Embedding of the archiver.  Returns the local archive path (`none` is
Python's None) together with the ordered list of steps attempted; the
surrounding try/except turns every raised oracle outcome into `none`. -/
def create_local_archive (env : ArchiveEnv) (files : List String) (task_id : String) :
    Option String × List ArchStep :=
  let archiveName := task_id ++ (".tar.gz")
  let cmd := primaryTarCmd files
  match env.tarRun with
  | .error _ => (none, [.tar cmd])
  | .ok _ =>
    match env.checkRun with
    | .error _ => (none, [.tar cmd, .checkExists])
    | .ok check =>
      let fbRes : Option PyErr × List ArchStep :=
        if check.exit_code ≠ 0 ∨ check.stdout = "" then archiveFallback env archiveName
        else (none, [])
      match fbRes with
      | (some _, steps) => (none, [.tar cmd, .checkExists] ++ steps)
      | (none, steps) =>
        match env.makedirs with
        | .error _ => (none, [.tar cmd, .checkExists] ++ steps)
        | .ok _ =>
          match env.openLocal with
          | .error _ => (none, [.tar cmd, .checkExists] ++ steps)
          | .ok _ =>
            match env.b64Run with
            | .error _ => (none, [.tar cmd, .checkExists] ++ steps ++ [.download])
            | .ok g =>
              if g.exit_code = 0 ∧ g.stdout ≠ "" then
                match env.b64decode with
                | .error _ => (none, [.tar cmd, .checkExists] ++ steps ++ [.download])
                | .ok _ =>
                  (some (("archives/") ++ archiveName),
                   [.tar cmd, .checkExists] ++ steps ++ [.download])
              else (none, [.tar cmd, .checkExists] ++ steps ++ [.download])

/- The orchestrators: process_task of e2b_simple.py and e2b_handler.py. -/

/-- Pipeline operations the orchestrator invokes, in call order. -/
inductive Event where
  | generate
  | create
  | execute
  | collect
  | archive
  | upload
  | kill
deriving DecidableEq, Repr

/-- Trace of one `process_task` call: operations invoked in order, and whether
a sandbox was successfully created (the sandbox variable is non-None). -/
structure RunTrace where
  calls : List Event
  created : Bool
deriving DecidableEq, Repr

/-- Number of occurrences of an event in a trace. -/
def countEvent (e : Event) : List Event → Nat
  | [] => 0
  | x :: xs => (if x = e then 1 else 0) + countEvent e xs

/-- Index of the first occurrence of an event (length when absent). -/
def idxOfEvent (e : Event) : List Event → Nat
  | [] => 0
  | x :: xs => if x = e then 0 else idxOfEvent e xs + 1

/-- The finally clause's guarded kill (`try ... except: pass`): the kill
outcome is consulted but cannot change the value being returned. -/
def swallow {α : Type} (x : Except PyErr Unit) (a : α) : α :=
  match x with
  | .ok _ => a
  | .error _ => a

/-- Oracle outcomes for one `SimpleE2BGenerator.process_task` attempt. -/
structure SimpleEnv where
  now : String
  generate : Except PyErr String
  create : Except PyErr Unit
  writeScript : Except PyErr CmdResult
  execRun : Except PyErr CmdResult
  findRun : Except PyErr CmdResult
  arch : ArchiveEnv
  s3Enabled : Bool
  upload : Except PyErr (Option String)
  kill : Except PyErr Unit
deriving Repr

/-- The task identifier: the provided value rendered, else the generated
default built from the current timestamp. -/
def taskIdOf (now : String) (td : TaskData) : String :=
  match td.task_id with
  | some v => v.render
  | none => ("task_") ++ now

/-- Completed record of e2b_simple; note it carries no error key and its
execution_output holds only the stdout of the execution step. -/
def simpleCompleted (tid : String) (spec : PyVal) (files : List String)
    (s3 : Option String) (archv : Option String) (out now : String) : ResultRecord :=
  { task_id := some tid, status := "completed", specification := some spec,
    error := none, files_created := some files, s3_url := s3,
    local_archive := archv, execution_output := some out, timestamp := now }

/-- Failed record built by the except clause of either orchestrator. -/
def simpleFailed (tid : String) (spec : PyVal) (e : PyErr) (now : String) : ResultRecord :=
  { task_id := some tid, status := "failed", specification := some spec,
    error := some e.toMessage, files_created := none, s3_url := none,
    local_archive := none, execution_output := none, timestamp := now }

/-- The try block of `SimpleE2BGenerator.process_task`: generation first,
then sandbox creation, execution, file listing, archiving and optional
upload, stopping at the first raised outcome.  Returns the pending result,
the ordered events, and whether the sandbox variable was set. -/
def simple_try_body (env : SimpleEnv) (tid : String) (spec : PyVal) :
    Except PyErr ResultRecord × List Event × Bool :=
  match env.generate with
  | .error e => (.error e, [.generate], false)
  | .ok _ =>
    match env.create with
    | .error e => (.error e, [.generate, .create], false)
    | .ok _ =>
      match env.writeScript with
      | .error e => (.error e, [.generate, .create, .execute], true)
      | .ok _ =>
        match env.execRun with
        | .error e => (.error e, [.generate, .create, .execute], true)
        | .ok r =>
          match env.findRun with
          | .error e => (.error e, [.generate, .create, .execute, .collect], true)
          | .ok fr =>
            let files := parseLines fr.stdout
            let archivePath := (create_local_archive env.arch files tid).fst
            if env.s3Enabled && archivePath.isSome then
              match env.upload with
              | .error e =>
                (.error e, [.generate, .create, .execute, .collect, .archive, .upload], true)
              | .ok s3 =>
                (.ok (simpleCompleted tid spec files s3 archivePath r.stdout env.now),
                 [.generate, .create, .execute, .collect, .archive, .upload], true)
            else
              (.ok (simpleCompleted tid spec files none archivePath r.stdout env.now),
               [.generate, .create, .execute, .collect, .archive], true)

/-- Embedding of `SimpleE2BGenerator.process_task` (e2b_simple.py).  The
opening log line slices the specification before the try block; the except
clause converts any raised pipeline outcome into a failed record; the
finally clause kills the sandbox exactly when one was created, swallowing
kill errors. -/
def simple_process_task (env : SimpleEnv) (td : TaskData) :
    Except PyErr ResultRecord × RunTrace :=
  let spec := td.specification.getD (PyVal.vstr (""))
  let tid := taskIdOf env.now td
  match sliceCheck spec with
  | .error e => (.error e, { calls := [], created := false })
  | .ok _ =>
    match simple_try_body env tid spec with
    | (res, evs, created) =>
      let res' :=
        match res with
        | .ok rec => Except.ok rec
        | .error e => Except.ok (simpleFailed tid spec e env.now)
      if created then
        (swallow env.kill res', { calls := evs ++ [.kill], created := created })
      else
        (res', { calls := evs, created := created })

/-- Execution summary returned by `E2BCodeGenerator._execute_in_sandbox`. -/
structure HandlerExec where
  files : List String
  output : String
  errorText : String
deriving DecidableEq, Repr

/-- Oracle outcomes for one `E2BCodeGenerator.process_task` attempt
(e2b_handler.py). -/
structure HandlerEnv where
  now : String
  createSandbox : Except PyErr Unit
  genPlan : Except PyErr String
  execute : Except PyErr HandlerExec
  close : Except PyErr Unit
deriving Repr

/-- Completed record of e2b_handler (plan, code and log payloads are
represented by the files list and output string; it carries no error key). -/
def handlerCompleted (tid : String) (spec : PyVal) (files : List String)
    (out now : String) : ResultRecord :=
  { task_id := some tid, status := "completed", specification := some spec,
    error := none, files_created := some files, s3_url := none,
    local_archive := none, execution_output := some out, timestamp := now }

/-- Embedding of `E2BCodeGenerator.process_task` (e2b_handler.py): sandbox
creation first, then plan generation, then execution; same prelude slicing,
except conversion and finally-close discipline as the simple generator. -/
def handler_process_task (env : HandlerEnv) (td : TaskData) :
    Except PyErr ResultRecord × RunTrace :=
  let spec := td.specification.getD (PyVal.vstr (""))
  let tid := taskIdOf env.now td
  match sliceCheck spec with
  | .error e => (.error e, { calls := [], created := false })
  | .ok _ =>
    let body : Except PyErr ResultRecord × List Event × Bool :=
      match env.createSandbox with
      | .error e => (.error e, [.create], false)
      | .ok _ =>
        match env.genPlan with
        | .error e => (.error e, [.create, .generate], true)
        | .ok _ =>
          match env.execute with
          | .error e => (.error e, [.create, .generate, .execute], true)
          | .ok r =>
            (.ok (handlerCompleted tid spec r.files r.output env.now),
             [.create, .generate, .execute], true)
    match body with
    | (res, evs, created) =>
      let res' :=
        match res with
        | .ok rec => Except.ok rec
        | .error e => Except.ok (simpleFailed tid spec e env.now)
      if created then
        (swallow env.close res', { calls := evs ++ [.kill], created := created })
      else
        (res', { calls := evs, created := created })

/- Queue consumers: sqs_processor_simple.py and sqs_e2b_processor.py. -/

/-- A received message body: either valid JSON decoding to a task dictionary
or a raw string that json.loads rejects. -/
inductive MsgBody where
  | json (td : TaskData)
  | raw (s : String)
deriving Repr

/-- Body parsing of `SQSSimpleProcessor._process_message`: on JSONDecodeError
the raw body is wrapped as the specification of a synthetic task. -/
def simpleParseTask : MsgBody → TaskData
  | .json td => td
  | .raw s => { specification := some (PyVal.vstr s), task_id := none }

/-- One iteration of the per-message loop of
`SQSSimpleProcessor.poll_and_process`: process, save, then delete only when
the record's status is completed; a raised outcome in processing or saving is
caught by the loop's except and takes no deletion action.  Returns the record
produced (when processing returned one) and whether delete was invoked. -/
def simple_handle_message (env : SimpleEnv) (save : Except PyErr Unit) (body : MsgBody) :
    Option ResultRecord × Bool :=
  match (simple_process_task env (simpleParseTask body)).fst with
  | .error _ => (none, false)
  | .ok rec =>
    match save with
    | .error _ => (some rec, false)
    | .ok _ => (some rec, rec.status == "completed")

/-- Failure record carrying only status, error and timestamp, as built by
`process_sqs_message` for invalid JSON and for unexpected exceptions. -/
def bareFailed (msg now : String) : ResultRecord :=
  { task_id := none, status := "failed", specification := none,
    error := some msg, files_created := none, s3_url := none,
    local_archive := none, execution_output := none, timestamp := now }

/-- Embedding of `process_sqs_message` (e2b_handler.py): parse the body,
build the generator (whose constructor may raise on missing configuration),
run process_task; the JSON error and any other exception are converted into
a failed record, so the function itself never raises. -/
def process_sqs_message (env : HandlerEnv) (init : Except PyErr Unit) :
    MsgBody → ResultRecord
  | .raw _ => bareFailed (("Invalid JSON: Expecting value")) env.now
  | .json td =>
    match init with
    | .error e => bareFailed e.toMessage env.now
    | .ok _ =>
      match (handler_process_task env td).fst with
      | .ok rec => rec
      | .error e => bareFailed e.toMessage env.now

/-- One iteration of the per-message loop of
`SQSE2BProcessor.poll_and_process`: process (never raises), save, then
delete unconditionally — deletion is not guarded by the record's status;
only a raised outcome in saving (caught by the loop's except) prevents it. -/
def e2b_handle_message (env : HandlerEnv) (init : Except PyErr Unit)
    (save : Except PyErr Unit) (body : MsgBody) : Option ResultRecord × Bool :=
  let r0 := process_sqs_message env init body
  match save with
  | .error _ => (some r0, false)
  | .ok _ => (some r0, true)

/- Primary-file selection: E2BClaudeCodeGenerator._get_main_file_content
(e2b_claude_sync.py). -/

/-- The fixed prioritized candidate list tried by the first tier. -/
def mainCandidates : List String :=
  ["/tmp/main.py", "/tmp/app.py", "/tmp/index.js", "/tmp/App.jsx",
   "/tmp/App.tsx", "/tmp/Calculator.jsx", "/tmp/index.html"]

/-- Python's lstrip over the dot-slash charset: drop leading dots and
slashes. -/
def lstripDotSlash (s : String) : String :=
  String.mk (s.toList.dropWhile (fun c => c == '.' || c == '/'))

/-- The match test for one candidate against the collected file list: the
candidate occurs inside some path, or some path ends with the candidate
stripped of leading dots and slashes. -/
def candMatches (files : List String) (cand : String) : Bool :=
  files.any (fun f => strContains f cand || strEnds f (lstripDotSlash cand))

/-- A successful truthy read: the sandbox read did not raise and returned
non-empty content (a raised read or empty content falls through). -/
def truthyRead (read : String → Option String) (p : String) : Option String :=
  match read p with
  | some c => if c = "" then none else some c
  | none => none

/-- Recognized source extensions of the second-tier fallback. -/
def hasCodeExt (f : String) : Bool :=
  strEnds f (".py") || strEnds f (".js") || strEnds f (".jsx") ||
  strEnds f (".tsx") || strEnds f (".html")

/-- First tier of the selection: the loop over the candidate list. -/
def tierOne (read : String → Option String) (files : List String) :
    List String → Option String
  | [] => none
  | c :: cs =>
    if candMatches files c then
      match truthyRead read c with
      | some content => some content
      | none => tierOne read files cs
    else tierOne read files cs

/-- Second tier: the fallback loop over the collected files themselves. -/
def tierTwo (read : String → Option String) : List String → Option String
  | [] => none
  | f :: fs =>
    if hasCodeExt f then
      match truthyRead read f with
      | some content => some content
      | none => tierTwo read fs
    else tierTwo read fs

/-- Embedding of `_get_main_file_content`: try the candidate list in order,
then fall back to the first collected file with a recognized extension that
reads non-empty content, else empty content. -/
def get_main_file_content (read : String → Option String) (files : List String) : String :=
  match tierOne read files mainCandidates with
  | some c => c
  | none =>
    match tierTwo read files with
    | some c => c
    | none => ""

/-- Modelled from the spec's words, for the refinement comparison of the
two-tier primary-file policy: the first prioritized candidate that matches
the file set and reads non-empty content wins; otherwise the first file with
a recognized source extension that reads non-empty content; otherwise empty
content. -/
def read_primary_spec (read : String → Option String) (files : List String) : String :=
  match mainCandidates.find? (fun c => candMatches files c && (truthyRead read c).isSome) with
  | some c => (truthyRead read c).getD ("")
  | none =>
    match files.find? (fun f => hasCodeExt f && (truthyRead read f).isSome) with
    | some f => (truthyRead read f).getD ("")
    | none => ""

/- Artifact collection: the shell listing pipelines of _list_created_files. -/

/-- Extensions matched by the find command of e2b_simple.py. -/
def simpleFindExts : List String :=
  [".py", ".js", ".jsx", ".tsx", ".html", ".css", ".json", ".md", ".txt"]

/-- Extension test of the simple find command. -/
def hasSimpleExt (f : String) : Bool :=
  simpleFindExts.any (fun e => strEnds f e)

/-- Embedding of the listing command of
`SimpleE2BGenerator._list_created_files` over the traversal order in which
find emits the environment's files: keep paths with a matching extension,
drop lines containing the generation script name, cap at 20 lines.  The
pipeline contains no sort stage. -/
def list_created_files_simple (traversal : List String) : List String :=
  ((traversal.filter hasSimpleExt).filter
    (fun f => !(strContains f ("generate.py")))).take 20

/-- Extensions matched by the find command of e2b_claude_handler.py. -/
def handlerFindExts : List String :=
  [".py", ".js", ".html", ".css", ".json", ".md", ".txt"]

/-- Extension test of the claude-handler find command. -/
def hasHandlerExt (f : String) : Bool :=
  handlerFindExts.any (fun e => strEnds f e)

/-- Embedding of the listing command of
`E2BClaudeCodeGenerator._list_created_files` (e2b_claude_handler.py): keep
paths with a matching extension, drop lines containing node_modules or .git,
cap at 20; it does not drop the generation script and contains no sort
stage. -/
def list_created_files_handler (traversal : List String) : List String :=
  ((traversal.filter hasHandlerExt).filter
    (fun f => !(strContains f ("node_modules")) && !(strContains f (".git")))).take 20

/- Concrete fixtures used by the counterexamples and witnesses. -/

/-- A successful command outcome. -/
def cmdZero : CmdResult := { stdout := "ok", stderr := "", exit_code := 0 }

/-- Archiver oracle where every step succeeds and the archive is retrieved. -/
def archEnvOk : ArchiveEnv :=
  { tarRun := .ok cmdZero,
    checkRun := .ok { stdout := "-rw-r--r-- 1", stderr := "", exit_code := 0 },
    lsRun := .ok cmdZero,
    fallbackTarRun := .ok cmdZero,
    makedirs := .ok (),
    openLocal := .ok (),
    b64Run := .ok { stdout := "H4sIA", stderr := "", exit_code := 0 },
    b64decode := .ok () }

/-- Simple-generator oracle where every pipeline step succeeds. -/
def simpleEnvOk : SimpleEnv :=
  { now := "1700000000",
    generate := .ok ("print(1)"),
    create := .ok (),
    writeScript := .ok cmdZero,
    execRun := .ok { stdout := "done", stderr := "", exit_code := 0 },
    findRun := .ok { stdout := "/tmp/hello.py", stderr := "", exit_code := 0 },
    arch := archEnvOk,
    s3Enabled := true,
    upload := .ok (some ("s3://watchlearn1/t1.tar.gz")),
    kill := .ok () }

/-- Handler oracle where every pipeline step succeeds. -/
def handlerEnvOk : HandlerEnv :=
  { now := "1700000000",
    createSandbox := .ok (),
    genPlan := .ok ("plan"),
    execute := .ok { files := ["main.py"], output := "ok", errorText := "" },
    close := .ok () }

/-- A well-formed task dictionary. -/
def tdHello : TaskData :=
  { specification := some (PyVal.vstr ("make hello")),
    task_id := some (PyVal.vstr ("t1")) }

/-- A task dictionary whose specification value is an integer. -/
def tdInt : TaskData :=
  { specification := some (PyVal.vint 3), task_id := none }

/-- Error-field projection of an `Except`-wrapped record (`some e` means a
record was returned and its error field is `e`). -/
def recError : Except PyErr ResultRecord → Option (Option String)
  | .ok r => some r.error
  | .error _ => none

/-- Local-archive-field projection of an `Except`-wrapped record. -/
def recLocalArchive : Except PyErr ResultRecord → Option (Option String)
  | .ok r => some r.local_archive
  | .error _ => none

/-- Specification-field projection of an `Except`-wrapped record. -/
def recSpec : Except PyErr ResultRecord → Option (Option PyVal)
  | .ok r => some r.specification
  | .error _ => none

/-- The execution outcome with a non-zero exit code and stderr text. -/
def cmdNZ : CmdResult := { stdout := "out", stderr := "boom", exit_code := 1 }

/-- Simple-generator oracle identical to `simpleEnvOk` except the execution
step exits non-zero without raising. -/
def simpleEnvExecNZ : SimpleEnv := { simpleEnvOk with execRun := .ok cmdNZ }

/-- Simple-generator oracle whose generation call raises. -/
def simpleEnvGenFail : SimpleEnv :=
  { simpleEnvOk with generate := .error (PyErr.exc ("api down")) }

/-- Archiver oracle where retrieval fails (base64 exits non-zero), so the
archiver returns a null archive. -/
def archEnvNone : ArchiveEnv :=
  { archEnvOk with b64Run := .ok { stdout := "", stderr := "", exit_code := 1 } }

/-- Simple-generator oracle whose archiver retrieval fails. -/
def simpleEnvArchNone : SimpleEnv := { simpleEnvOk with arch := archEnvNone }

/-- Archiver oracle where the existence check reports no archive and the
directory enumeration finds one file. -/
def archEnvCheckFail : ArchiveEnv :=
  { archEnvOk with
    checkRun := .ok { stdout := "", stderr := "", exit_code := 1 },
    lsRun := .ok { stdout := "hello.py", stderr := "", exit_code := 0 } }

/- Helper lemmas shared by the claim theorems. -/

/-- The guarded kill of the finally clause cannot change the returned value. -/
theorem swallow_eq {α : Type} (x : Except PyErr Unit) (a : α) : swallow x a = a := by
  cases x <;> rfl

/-- When the specification value is absent or a string, the opening log line
does not raise. -/
theorem sliceCheck_of_specIsString (td : TaskData) (h : specIsString td) :
    sliceCheck (td.specification.getD (PyVal.vstr (""))) = Except.ok () := by
  cases hs : td.specification with
  | none => simp [hs, sliceCheck]
  | some v =>
    rcases h v hs with ⟨s, rfl⟩
    simp [hs, sliceCheck]

/-- The seven possible traces of the simple generator's process_task. -/
theorem simple_trace_shape (senv : SimpleEnv) (td : TaskData) :
    (simple_process_task senv td).snd = ⟨[], false⟩ ∨
    (simple_process_task senv td).snd = ⟨[.generate], false⟩ ∨
    (simple_process_task senv td).snd = ⟨[.generate, .create], false⟩ ∨
    (simple_process_task senv td).snd = ⟨[.generate, .create, .execute, .kill], true⟩ ∨
    (simple_process_task senv td).snd =
      ⟨[.generate, .create, .execute, .collect, .kill], true⟩ ∨
    (simple_process_task senv td).snd =
      ⟨[.generate, .create, .execute, .collect, .archive, .kill], true⟩ ∨
    (simple_process_task senv td).snd =
      ⟨[.generate, .create, .execute, .collect, .archive, .upload, .kill], true⟩ := by
  obtain ⟨now, gen, cre, ws, ex, fnd, arch, s3, up, kl⟩ := senv
  simp only [simple_process_task, simple_try_body]
  cases hsl : sliceCheck (td.specification.getD (PyVal.vstr (""))) with
  | error e => simp
  | ok u =>
    cases gen with
    | error e => simp
    | ok g =>
      cases cre with
      | error e => simp
      | ok u1 =>
        cases ws with
        | error e => simp
        | ok w =>
          cases ex with
          | error e => simp
          | ok r =>
            cases fnd with
            | error e => simp
            | ok fr =>
              by_cases hc : s3 = true ∧
                  (create_local_archive arch (parseLines fr.stdout) (taskIdOf now td)).1.isSome = true
              · cases up with
                | error e => simp [hc.1, hc.2]
                | ok s3url => simp [hc.1, hc.2]
              · simp [hc]

/-- The four possible traces of the handler's process_task. -/
theorem handler_trace_shape (henv : HandlerEnv) (td : TaskData) :
    (handler_process_task henv td).snd = ⟨[], false⟩ ∨
    (handler_process_task henv td).snd = ⟨[.create], false⟩ ∨
    (handler_process_task henv td).snd = ⟨[.create, .generate, .kill], true⟩ ∨
    (handler_process_task henv td).snd =
      ⟨[.create, .generate, .execute, .kill], true⟩ := by
  obtain ⟨now, cs, gp, ex, cl⟩ := henv
  simp only [handler_process_task]
  cases hsl : sliceCheck (td.specification.getD (PyVal.vstr (""))) with
  | error e => simp
  | ok u =>
    cases cs with
    | error e => simp
    | ok u1 =>
      cases gp with
      | error e => simp
      | ok p =>
        cases ex with
        | error e => simp
        | ok r => simp

/-- Helper: every simple-generator run with a string-or-absent specification
returns a record with a terminal status. -/
theorem simple_status (senv : SimpleEnv) (td : TaskData) (h : specIsString td) :
    recStatus (simple_process_task senv td).fst = some ("completed") ∨
    recStatus (simple_process_task senv td).fst = some ("failed") := by
  obtain ⟨now, gen, cre, ws, ex, fnd, arch, s3, up, kl⟩ := senv
  simp only [simple_process_task, simple_try_body, sliceCheck_of_specIsString td h,
    swallow_eq]
  cases gen with
  | error e => simp [recStatus, simpleFailed]
  | ok g =>
    cases cre with
    | error e => simp [recStatus, simpleFailed]
    | ok u1 =>
      cases ws with
      | error e => simp [recStatus, simpleFailed]
      | ok w =>
        cases ex with
        | error e => simp [recStatus, simpleFailed]
        | ok r =>
          cases fnd with
          | error e => simp [recStatus, simpleFailed]
          | ok fr =>
            simp only [swallow_eq]
            split
            · cases up with
              | error e => simp [recStatus, simpleFailed]
              | ok s3url => simp [recStatus, simpleCompleted]
            · simp [recStatus, simpleCompleted]

/-- Helper: every handler run with a string-or-absent specification returns
a record with a terminal status. -/
theorem handler_status (henv : HandlerEnv) (td : TaskData) (h : specIsString td) :
    recStatus (handler_process_task henv td).fst = some ("completed") ∨
    recStatus (handler_process_task henv td).fst = some ("failed") := by
  obtain ⟨now, cs, gp, ex, cl⟩ := henv
  simp only [handler_process_task, sliceCheck_of_specIsString td h, swallow_eq]
  cases cs with
  | error e => simp [recStatus, simpleFailed]
  | ok u1 =>
    cases gp with
    | error e => simp [recStatus, simpleFailed]
    | ok p =>
      cases ex with
      | error e => simp [recStatus, simpleFailed]
      | ok r => simp [recStatus, handlerCompleted]

/-- Claim C1 (counterexample): for the dictionary task input whose
specification value is the integer 3, both orchestrators raise a TypeError
past their boundary instead of returning a Result Record — the opening log
line slices the specification before the try block, so the claim's
for-every-dictionary guarantee is false. -/
theorem C1_counterexample :
    escaped (simple_process_task simpleEnvOk tdInt).fst = true ∧
    escaped (handler_process_task handlerEnvOk tdInt).fst = true ∧
    recStatus (simple_process_task simpleEnvOk tdInt).fst = none :=
  ⟨rfl, rfl, rfl⟩

/-- Claim C1 (amended): for every oracle environment and every dictionary
task input whose specification value is absent or a string, process_task of
e2b_simple and of e2b_handler returns exactly one Result Record whose status
is completed or failed and never raises past its boundary: every exception
raised inside the try-block pipeline is caught and converted into a failed
record with a string error field. -/
theorem C1_run_never_escapes (senv : SimpleEnv) (henv : HandlerEnv)
    (td : TaskData) (h : specIsString td) :
    (recStatus (simple_process_task senv td).fst = some ("completed") ∨
      recStatus (simple_process_task senv td).fst = some ("failed")) ∧
    (recStatus (handler_process_task henv td).fst = some ("completed") ∨
      recStatus (handler_process_task henv td).fst = some ("failed")) :=
  ⟨simple_status senv td h, handler_status henv td h⟩

/-- Witness for C1: the amended theorem applied at the all-success oracles
and the hello task. -/
theorem C1_witness :
    (recStatus (simple_process_task simpleEnvOk tdHello).fst = some ("completed") ∨
      recStatus (simple_process_task simpleEnvOk tdHello).fst = some ("failed")) ∧
    (recStatus (handler_process_task handlerEnvOk tdHello).fst = some ("completed") ∨
      recStatus (handler_process_task handlerEnvOk tdHello).fst = some ("failed")) :=
  C1_run_never_escapes simpleEnvOk handlerEnvOk tdHello (by decide)

/-- Claim C2: in both orchestrators the sandbox destroy call happens exactly
once per task attempt when a sandbox was successfully created — on every
exit path, normal or exceptional — and never when creation did not
succeed. -/
theorem C2_destroy_exactly_once (senv : SimpleEnv) (henv : HandlerEnv) (td : TaskData) :
    countEvent .kill (simple_process_task senv td).snd.calls =
      (if (simple_process_task senv td).snd.created = true then 1 else 0) ∧
    countEvent .kill (handler_process_task henv td).snd.calls =
      (if (handler_process_task henv td).snd.created = true then 1 else 0) := by
  constructor
  · rcases simple_trace_shape senv td with h | h | h | h | h | h | h <;> rw [h] <;> decide
  · rcases handler_trace_shape henv td with h | h | h | h <;> rw [h] <;> decide

/-- Claim C5 (counterexample): with the all-success oracle the simple
generator invokes generation strictly before sandbox creation, and when
generation fails no sandbox was ever created — so the claim's
create-then-generate ordering, and its consequence that a failed generation
leaves an environment to clean up, is false for e2b_simple. -/
theorem C5_counterexample :
    idxOfEvent .generate (simple_process_task simpleEnvOk tdHello).snd.calls <
      idxOfEvent .create (simple_process_task simpleEnvOk tdHello).snd.calls ∧
    (simple_process_task simpleEnvGenFail tdHello).snd.created = false ∧
    Event.create ∉ (simple_process_task simpleEnvGenFail tdHello).snd.calls :=
  ⟨by decide, by decide, by decide⟩

/-- Claim C5 (amended): in e2b_handler the environment is created first and
generation is invoked only after creation succeeds; in e2b_simple the order
is reversed — generation runs first and the environment is created only
afterwards, so a generation failure there leaves no environment to clean
up. -/
theorem C5_ordering (henv : HandlerEnv) (senv : SimpleEnv) (td td' : TaskData) :
    (Event.generate ∈ (handler_process_task henv td).snd.calls →
      (handler_process_task henv td).snd.created = true ∧
      idxOfEvent .create (handler_process_task henv td).snd.calls <
        idxOfEvent .generate (handler_process_task henv td).snd.calls) ∧
    (Event.create ∈ (simple_process_task senv td').snd.calls →
      idxOfEvent .generate (simple_process_task senv td').snd.calls <
        idxOfEvent .create (simple_process_task senv td').snd.calls) := by
  constructor
  · intro hmem
    rcases handler_trace_shape henv td with h | h | h | h <;>
      rw [h] at hmem ⊢ <;> revert hmem <;> decide
  · intro hmem
    rcases simple_trace_shape senv td' with h | h | h | h | h | h | h <;>
      rw [h] at hmem ⊢ <;> revert hmem <;> decide

/-- Witness for C5: the amended ordering at the all-success oracles. -/
theorem C5_witness :
    ((handler_process_task handlerEnvOk tdHello).snd.created = true ∧
      idxOfEvent .create (handler_process_task handlerEnvOk tdHello).snd.calls <
        idxOfEvent .generate (handler_process_task handlerEnvOk tdHello).snd.calls) ∧
    (idxOfEvent .generate (simple_process_task simpleEnvOk tdHello).snd.calls <
      idxOfEvent .create (simple_process_task simpleEnvOk tdHello).snd.calls) :=
  ⟨(C5_ordering handlerEnvOk simpleEnvOk tdHello tdHello).1 (by decide),
   (C5_ordering handlerEnvOk simpleEnvOk tdHello tdHello).2 (by decide)⟩

/-- Claim C10: a raised destroy during cleanup is caught by the except of
the finally clause, and the Result Record already computed on the success or
failure path is returned unchanged — the cleanup failure can alter neither
the record nor the task status and never escapes the boundary. -/
theorem C10_destroy_error_ignored (senv : SimpleEnv) (henv : HandlerEnv)
    (td : TaskData) (k : Except PyErr Unit) :
    (simple_process_task { senv with kill := k } td).fst =
      (simple_process_task senv td).fst ∧
    (handler_process_task { henv with close := k } td).fst =
      (handler_process_task henv td).fst := by
  obtain ⟨now, gen, cre, ws, ex, fnd, arch, s3, up, kl⟩ := senv
  obtain ⟨hnow, hcs, hgp, hex, hcl⟩ := henv
  constructor <;>
    simp only [simple_process_task, simple_try_body, handler_process_task, swallow_eq]

/-- Claim C3 (counterexample): in the sqs_e2b_processor loop a message whose
processing produced a failed Result Record (here: an unparseable body) is
still deleted from the queue once saving succeeds — refuting "deleted if and
only if completed". -/
theorem C3_counterexample :
    ((e2b_handle_message handlerEnvOk (Except.ok ()) (Except.ok ())
        (MsgBody.raw ("oops"))).fst).map ResultRecord.status = some ("failed") ∧
    (e2b_handle_message handlerEnvOk (Except.ok ()) (Except.ok ())
        (MsgBody.raw ("oops"))).snd = true :=
  ⟨rfl, rfl⟩

/-- Claim C3 (amended): the sqs_processor_simple loop deletes a message if
and only if processing returned a record, saving succeeded, and the record's
status is completed; the sqs_e2b_processor loop instead deletes whenever
saving succeeded, regardless of the record's status. -/
theorem C3_delete_policy (senv : SimpleEnv) (s1 s2 : Except PyErr Unit)
    (body : MsgBody) (henv : HandlerEnv) (init : Except PyErr Unit) :
    ((simple_handle_message senv s1 body).snd = true ↔
      (s1 = Except.ok () ∧ ∃ rec, (simple_handle_message senv s1 body).fst = some rec ∧
        rec.status = ("completed"))) ∧
    ((e2b_handle_message henv init s2 body).snd = true ↔ s2 = Except.ok ()) := by
  constructor
  · unfold simple_handle_message
    cases hp : (simple_process_task senv (simpleParseTask body)).fst with
    | error e => simp
    | ok rec =>
      cases s1 with
      | error e => simp
      | ok u => cases u; simp [beq_iff_eq]
  · unfold e2b_handle_message
    cases s2 with
    | error e => simp
    | ok u => cases u; simp

/-- Claim C4 (counterexample): in the simple consumer an unparseable body is
not treated as a failure — it is processed as a task whose specification is
the raw body; with the all-success oracle the record completes (carrying the
raw body as its specification) and the message is deleted, refuting both
halves of the claim. -/
theorem C4_counterexample :
    ((simple_handle_message simpleEnvOk (Except.ok ())
        (MsgBody.raw ("oops"))).fst).map ResultRecord.status = some ("completed") ∧
    ((simple_handle_message simpleEnvOk (Except.ok ())
        (MsgBody.raw ("oops"))).fst).map ResultRecord.specification =
      some (some (PyVal.vstr ("oops"))) ∧
    (simple_handle_message simpleEnvOk (Except.ok ()) (MsgBody.raw ("oops"))).snd = true :=
  ⟨rfl, rfl, rfl⟩

/-- Claim C4 (amended): an unparseable body is wrapped by the simple
consumer into a synthetic task whose specification is the raw body and
processed normally (it may complete); e2b_handler's process_sqs_message does
produce a failed record for it, but the sqs_e2b_processor loop still deletes
the message whenever saving succeeds. -/
theorem C4_malformed_body (henv : HandlerEnv) (init : Except PyErr Unit) (s : String) :
    simpleParseTask (MsgBody.raw s) =
      { specification := some (PyVal.vstr s), task_id := none } ∧
    (process_sqs_message henv init (MsgBody.raw s)).status = ("failed") ∧
    (e2b_handle_message henv init (Except.ok ()) (MsgBody.raw s)).snd = true :=
  ⟨rfl, rfl, rfl⟩

/-- Claim C6 (counterexample): with execution returning exit code 1 and
stderr text (raising nothing), the returned record is completed — but its
error field is absent and so the stderr was not captured into the record's
error field as the claim states. -/
theorem C6_counterexample :
    cmdNZ.stderr = ("boom") ∧
    recStatus (simple_process_task simpleEnvExecNZ tdHello).fst = some ("completed") ∧
    recError (simple_process_task simpleEnvExecNZ tdHello).fst = some none :=
  ⟨rfl, rfl, rfl⟩

/-- Claim C6 (amended): when the earlier steps succeed and execution returns
without raising (whatever its exit code, in particular non-zero), the simple
generator still proceeds to artifact collection — and to archiving when the
collection command returns — and any completed record it returns carries no
error field at all (the stderr is discarded); its execution_output holds
only the stdout of the execution. -/
theorem C6_nonzero_exit (senv : SimpleEnv) (td : TaskData) (g : String)
    (w r : CmdResult) (hspec : specIsString td)
    (hgen : senv.generate = Except.ok g) (hcre : senv.create = Except.ok ())
    (hws : senv.writeScript = Except.ok w) (hex : senv.execRun = Except.ok r)
    (hnz : r.exit_code ≠ 0) :
    Event.collect ∈ (simple_process_task senv td).snd.calls ∧
    (∀ fr, senv.findRun = Except.ok fr →
      Event.archive ∈ (simple_process_task senv td).snd.calls) ∧
    (∀ rec, (simple_process_task senv td).fst = Except.ok rec →
      rec.status = ("completed") →
      rec.error = none ∧ rec.execution_output = some r.stdout) := by
  refine ⟨?_, ?_, ?_⟩
  · simp only [simple_process_task, simple_try_body,
      sliceCheck_of_specIsString td hspec, hgen, hcre, hws, hex, swallow_eq]
    cases hf : senv.findRun with
    | error e => simp
    | ok fr =>
      by_cases hc : (senv.s3Enabled &&
          (create_local_archive senv.arch (parseLines fr.stdout)
            (taskIdOf senv.now td)).fst.isSome) = true
      · cases hu : senv.upload <;> simp [hc]
      · rw [Bool.not_eq_true] at hc
        simp [hc]
  · intro fr hf
    simp only [simple_process_task, simple_try_body,
      sliceCheck_of_specIsString td hspec, hgen, hcre, hws, hex, hf, swallow_eq]
    by_cases hc : (senv.s3Enabled &&
        (create_local_archive senv.arch (parseLines fr.stdout)
          (taskIdOf senv.now td)).fst.isSome) = true
    · cases hu : senv.upload <;> simp [hc]
    · rw [Bool.not_eq_true] at hc
      simp [hc]
  · intro rec hrec hst
    simp only [simple_process_task, simple_try_body,
      sliceCheck_of_specIsString td hspec, hgen, hcre, hws, hex, swallow_eq] at hrec
    cases hf : senv.findRun with
    | error e =>
      rw [hf] at hrec
      simp only [Except.ok.injEq, if_true, reduceIte] at hrec
      subst hrec
      simp [simpleFailed] at hst
    | ok fr =>
      rw [hf] at hrec
      by_cases hc : (senv.s3Enabled &&
          (create_local_archive senv.arch (parseLines fr.stdout)
            (taskIdOf senv.now td)).fst.isSome) = true
      · cases hu : senv.upload with
        | error e =>
          rw [hu] at hrec
          simp only [hc, Except.ok.injEq, if_true, reduceIte] at hrec
          subst hrec
          simp [simpleFailed] at hst
        | ok s3url =>
          rw [hu] at hrec
          simp only [hc, Except.ok.injEq, if_true, reduceIte] at hrec
          subst hrec
          simp [simpleCompleted]
      · rw [Bool.not_eq_true] at hc
        simp only [hc, Bool.false_eq_true, Except.ok.injEq, if_true, if_false,
          reduceIte] at hrec
        subst hrec
        simp [simpleCompleted]

/-- Witness for C6: the amended theorem at the non-zero-exit oracle. -/
theorem C6_witness :
    Event.collect ∈ (simple_process_task simpleEnvExecNZ tdHello).snd.calls :=
  (C6_nonzero_exit simpleEnvExecNZ tdHello ("print(1)") cmdZero cmdNZ
    (by decide) rfl rfl rfl rfl (by decide)).1

/-- Helper: every archiver run first issues the tar command chosen by the
primary branching. -/
theorem arch_steps_head (aenv : ArchiveEnv) (files : List String) (tid : String) :
    ∃ rest, (create_local_archive aenv files tid).snd =
      ArchStep.tar (primaryTarCmd files) :: rest := by
  obtain ⟨tarR, checkR, lsR, fbR, mkd, opn, b64r, b64d⟩ := aenv
  simp only [create_local_archive]
  cases tarR with
  | error e => exact ⟨_, rfl⟩
  | ok tr =>
    dsimp only
    cases checkR with
    | error e => exact ⟨_, rfl⟩
    | ok c =>
      dsimp only
      by_cases hcond : c.exit_code ≠ 0 ∨ c.stdout = ""
      · rw [if_pos hcond]
        rcases hfb : archiveFallback
            (ArchiveEnv.mk (Except.ok tr) (Except.ok c) lsR fbR mkd opn b64r b64d)
            (tid ++ (".tar.gz")) with ⟨ofst, steps⟩
        cases ofst with
        | some e => exact ⟨_, rfl⟩
        | none =>
          dsimp only
          cases mkd with
          | error e => exact ⟨_, rfl⟩
          | ok u =>
            dsimp only
            cases opn with
            | error e => exact ⟨_, rfl⟩
            | ok u2 =>
              dsimp only
              cases b64r with
              | error e => exact ⟨_, rfl⟩
              | ok gq =>
                dsimp only
                by_cases hg : gq.exit_code = 0 ∧ gq.stdout ≠ ""
                · rw [if_pos hg]
                  cases b64d with
                  | error e => exact ⟨_, rfl⟩
                  | ok u3 => exact ⟨_, rfl⟩
                · rw [if_neg hg]
                  exact ⟨_, rfl⟩
      · rw [if_neg hcond]
        dsimp only
        cases mkd with
        | error e => exact ⟨_, rfl⟩
        | ok u =>
          dsimp only
          cases opn with
          | error e => exact ⟨_, rfl⟩
          | ok u2 =>
            dsimp only
            cases b64r with
            | error e => exact ⟨_, rfl⟩
            | ok gq =>
              dsimp only
              by_cases hg : gq.exit_code = 0 ∧ gq.stdout ≠ ""
              · rw [if_pos hg]
                cases b64d with
                | error e => exact ⟨_, rfl⟩
                | ok u3 => exact ⟨_, rfl⟩
              · rw [if_neg hg]
                exact ⟨_, rfl⟩

/-- Helper: the fallback suite always performs the directory enumeration,
and re-tars exactly the filtered enumeration when it is non-empty. -/
theorem archiveFallback_mem (aenv : ArchiveEnv) (an : String) :
    ArchStep.enumerateDir ∈ (archiveFallback aenv an).snd ∧
    (∀ ls, aenv.lsRun = Except.ok ls → ls.stdout ≠ "" →
      actualFilesOf ls.stdout an ≠ [] →
      ArchStep.fallbackTar (actualFilesOf ls.stdout an) ∈ (archiveFallback aenv an).snd) := by
  constructor
  · simp only [archiveFallback]
    cases hls : aenv.lsRun with
    | error e => simp
    | ok ls =>
      dsimp only
      by_cases h1 : ls.stdout ≠ ""
      · rw [if_pos h1]
        by_cases h2 : actualFilesOf ls.stdout an ≠ []
        · rw [if_pos h2]
          cases hfb : aenv.fallbackTarRun <;> simp
        · rw [if_neg h2]
          simp
      · rw [if_neg h1]
        simp
  · intro ls hls h1 h2
    simp only [archiveFallback, hls]
    rw [if_pos h1, if_pos h2]
    cases hfb : aenv.fallbackTarRun <;> simp

/-- Helper: when the tar and check commands return and the check reports no
archive, the archiver's step list is the primary tar, the check, the whole
fallback suite, and then possibly the download. -/
theorem arch_steps_decomp (aenv : ArchiveEnv) (files : List String) (tid : String)
    (tr c : CmdResult) (htr : aenv.tarRun = Except.ok tr)
    (hck : aenv.checkRun = Except.ok c) (hcond : c.exit_code ≠ 0 ∨ c.stdout = "") :
    ∃ tail, (create_local_archive aenv files tid).snd =
      [ArchStep.tar (primaryTarCmd files), ArchStep.checkExists] ++
        (archiveFallback aenv (tid ++ (".tar.gz"))).snd ++ tail := by
  simp only [create_local_archive, htr, hck]
  rw [if_pos hcond]
  rcases hfb : archiveFallback aenv (tid ++ (".tar.gz")) with ⟨ofst, steps⟩
  cases ofst with
  | some e => exact ⟨[], by simp⟩
  | none =>
    cases hm : aenv.makedirs with
    | error e => exact ⟨[], by simp⟩
    | ok u =>
      cases ho : aenv.openLocal with
      | error e => exact ⟨[], by simp⟩
      | ok u2 =>
        cases hb : aenv.b64Run with
        | error e => exact ⟨[ArchStep.download], by simp⟩
        | ok gq =>
          dsimp only
          by_cases hg : gq.exit_code = 0 ∧ gq.stdout ≠ ""
          · rw [if_pos hg]
            cases hd : aenv.b64decode with
            | error e => exact ⟨[ArchStep.download], by simp⟩
            | ok u3 => exact ⟨[ArchStep.download], by simp⟩
          · rw [if_neg hg]
            exact ⟨[ArchStep.download], by simp⟩

/-- Claim C7: the archiver's fallback chain is respected in order — when the
collected list (after cleaning) is non-empty and not just the generation
script, the first tar bundles exactly those cleaned paths minus the script;
whenever the post-hoc existence check reports no retrievable archive, the
working-directory enumeration is attempted (and a tar over exactly the
filtered enumeration when it is non-empty) before giving up; and a null
archive outcome does not raise and leaves the task status completed with a
None local archive. -/
theorem C7_fallback_chain :
    (∀ (aenv : ArchiveEnv) (files : List String) (tid : String), files ≠ [] →
      files.map cleanName ≠ [("generate.py")] →
      ∃ rest, (create_local_archive aenv files tid).snd =
        ArchStep.tar (TarCmd.explicitPaths
          ((files.map cleanName).filter (fun f => f ≠ ("generate.py")))) :: rest) ∧
    (∀ (aenv : ArchiveEnv) (files : List String) (tid : String) (tr c : CmdResult),
      aenv.tarRun = Except.ok tr → aenv.checkRun = Except.ok c →
      (c.exit_code ≠ 0 ∨ c.stdout = "") →
      ArchStep.enumerateDir ∈ (create_local_archive aenv files tid).snd ∧
      (∀ ls, aenv.lsRun = Except.ok ls → ls.stdout ≠ "" →
        actualFilesOf ls.stdout (tid ++ (".tar.gz")) ≠ [] →
        ArchStep.fallbackTar (actualFilesOf ls.stdout (tid ++ (".tar.gz"))) ∈
          (create_local_archive aenv files tid).snd)) ∧
    (∀ (senv : SimpleEnv) (td : TaskData) (g : String) (w r fr : CmdResult),
      specIsString td →
      senv.generate = Except.ok g → senv.create = Except.ok () →
      senv.writeScript = Except.ok w → senv.execRun = Except.ok r →
      senv.findRun = Except.ok fr →
      (create_local_archive senv.arch (parseLines fr.stdout) (taskIdOf senv.now td)).fst
        = none →
      recStatus (simple_process_task senv td).fst = some ("completed") ∧
      recLocalArchive (simple_process_task senv td).fst = some none) := by
  refine ⟨?_, ?_, ?_⟩
  · intro aenv files tid hne hng
    have hclean : files.map cleanName ≠ [] := by
      intro hmap
      exact hne (List.map_eq_nil_iff.mp hmap)
    have hnot : ¬(files.map cleanName = [("generate.py")] ∨ files.map cleanName = []) := by
      intro hor
      rcases hor with h1 | h2
      · exact hng h1
      · exact hclean h2
    have hcmd : primaryTarCmd files =
        TarCmd.explicitPaths ((files.map cleanName).filter (fun f => f ≠ ("generate.py"))) := by
      simp only [primaryTarCmd]
      rw [if_neg hne, if_neg hnot]
    rcases arch_steps_head aenv files tid with ⟨rest, hrest⟩
    exact ⟨rest, by rw [hrest, hcmd]⟩
  · intro aenv files tid tr c htr hck hcond
    rcases arch_steps_decomp aenv files tid tr c htr hck hcond with ⟨tail, hd⟩
    constructor
    · rw [hd]
      simp [List.mem_append, (archiveFallback_mem aenv (tid ++ (".tar.gz"))).1]
    · intro ls hls h1 h2
      rw [hd]
      simp [List.mem_append,
        (archiveFallback_mem aenv (tid ++ (".tar.gz"))).2 ls hls h1 h2]
  · intro senv td g w r fr hspec hgen hcre hws hex hfnd hnone
    simp only [simple_process_task, simple_try_body,
      sliceCheck_of_specIsString td hspec, hgen, hcre, hws, hex, hfnd, swallow_eq]
    simp [hnone, recStatus, recLocalArchive, simpleCompleted]

/-- Witness for C7: the three parts of the fallback-chain theorem at
concrete archiver oracles. -/
theorem C7_witness :
    (∃ rest, (create_local_archive archEnvOk [("/tmp/hello.py")] ("t1")).snd =
      ArchStep.tar (TarCmd.explicitPaths
        (([("/tmp/hello.py")].map cleanName).filter (fun f => f ≠ ("generate.py")))) :: rest) ∧
    ArchStep.enumerateDir ∈
      (create_local_archive archEnvCheckFail [("/tmp/hello.py")] ("t1")).snd ∧
    recStatus (simple_process_task simpleEnvArchNone tdHello).fst = some ("completed") :=
  ⟨C7_fallback_chain.1 archEnvOk [("/tmp/hello.py")] ("t1") (by decide) (by decide),
   (C7_fallback_chain.2.1 archEnvCheckFail [("/tmp/hello.py")] ("t1") cmdZero
      { stdout := "", stderr := "", exit_code := 1 } rfl rfl (by decide)).1,
   (C7_fallback_chain.2.2 simpleEnvArchNone tdHello ("print(1)") cmdZero
      { stdout := "done", stderr := "", exit_code := 0 }
      { stdout := ("/tmp/hello.py"), stderr := "", exit_code := 0 }
      (by decide) rfl rfl rfl rfl rfl (by decide)).1⟩

/-- Helper: the first-tier loop returns the truthy read of the first
candidate that matches the file set and reads non-empty content. -/
theorem tierOne_eq_find (read : String → Option String) (files : List String) :
    ∀ cs : List String, tierOne read files cs =
      match cs.find? (fun c => candMatches files c && (truthyRead read c).isSome) with
      | some c => truthyRead read c
      | none => none := by
  intro cs
  induction cs with
  | nil => rfl
  | cons c cs ih =>
    by_cases hm : candMatches files c = true
    · cases ht : truthyRead read c with
      | some content =>
        rw [List.find?_cons_of_pos _ (by simp [hm, ht])]
        simp [tierOne, hm, ht]
      | none =>
        rw [List.find?_cons_of_neg _ (by simp [hm, ht])]
        simp [tierOne, hm, ht, ih]
    · rw [List.find?_cons_of_neg _ (by simp [hm])]
      rw [Bool.not_eq_true] at hm
      simp [tierOne, hm, ih]

/-- Helper: the second-tier loop returns the truthy read of the first
collected file with a recognized extension and non-empty content. -/
theorem tierTwo_eq_find (read : String → Option String) :
    ∀ fs : List String, tierTwo read fs =
      match fs.find? (fun f => hasCodeExt f && (truthyRead read f).isSome) with
      | some f => truthyRead read f
      | none => none := by
  intro fs
  induction fs with
  | nil => rfl
  | cons f fs ih =>
    by_cases hm : hasCodeExt f = true
    · cases ht : truthyRead read f with
      | some content =>
        rw [List.find?_cons_of_pos _ (by simp [hm, ht])]
        simp [tierTwo, hm, ht]
      | none =>
        rw [List.find?_cons_of_neg _ (by simp [hm, ht])]
        simp [tierTwo, hm, ht, ih]
    · rw [List.find?_cons_of_neg _ (by simp [hm])]
      rw [Bool.not_eq_true] at hm
      simp [tierTwo, hm, ih]

/-- Claim C8: the primary-file selection implements the two-tier policy
exactly and deterministically — it returns the content of the first
prioritized candidate name that matches the file set and reads non-empty
content; only when no candidate qualifies does it fall back to the first
file in the list with a recognized source extension and non-empty content;
and it returns empty content when no file qualifies.  Both sides are pure
functions of the file set and the read oracle, so repeated calls on the same
file set select the same primary file. -/
theorem C8_two_tier_selection (read : String → Option String) (files : List String) :
    get_main_file_content read files = read_primary_spec read files := by
  unfold get_main_file_content read_primary_spec
  rw [tierOne_eq_find read files mainCandidates, tierTwo_eq_find read files]
  cases h1 : mainCandidates.find? (fun c => candMatches files c && (truthyRead read c).isSome) with
  | some c =>
    have hp := List.find?_some h1
    simp only [Bool.and_eq_true] at hp
    rcases Option.isSome_iff_exists.mp hp.2 with ⟨content, hc⟩
    simp [hc]
  | none =>
    cases h2 : files.find? (fun f => hasCodeExt f && (truthyRead read f).isSome) with
    | some f =>
      have hp := List.find?_some h2
      simp only [Bool.and_eq_true] at hp
      rcases Option.isSome_iff_exists.mp hp.2 with ⟨content, hc⟩
      simp [hc]
    | none => rfl

/-- Claim C9 (counterexample): the listing pipelines contain no sort stage —
an environment whose find traversal emits two matching files out of
lexicographic order returns them in that same unsorted order, refuting the
claimed lexicographic ordering. -/
theorem C9_counterexample :
    list_created_files_simple [("/tmp/b.py"), ("/tmp/a.py")] =
      [("/tmp/b.py"), ("/tmp/a.py")] ∧
    lexSorted (list_created_files_simple [("/tmp/b.py"), ("/tmp/a.py")]) = false :=
  ⟨by decide, by decide⟩

/-- Claim C9 (amended): for every traversal order the listing returns at
most 20 paths, a subsequence of the traversal in traversal order (not
sorted), each with a matching extension; the simple pipeline excludes only
lines containing the generation script name, while the claude-handler
pipeline excludes only lines containing node_modules or .git. -/
theorem C9_listing (traversal : List String) :
    (list_created_files_simple traversal).length ≤ 20 ∧
    List.Sublist (list_created_files_simple traversal) traversal ∧
    (∀ f, f ∈ list_created_files_simple traversal →
      strContains f ("generate.py") = false ∧ hasSimpleExt f = true) ∧
    (list_created_files_handler traversal).length ≤ 20 ∧
    List.Sublist (list_created_files_handler traversal) traversal ∧
    (∀ f, f ∈ list_created_files_handler traversal →
      strContains f ("node_modules") = false ∧ strContains f (".git") = false ∧
      hasHandlerExt f = true) := by
  refine ⟨?_, ?_, ?_, ?_, ?_, ?_⟩
  · rw [list_created_files_simple, List.length_take]
    exact min_le_left _ _
  · exact ((List.take_sublist _ _).trans (List.filter_sublist _)).trans (List.filter_sublist _)
  · intro f hf
    have h1 := (List.take_sublist _ _).subset hf
    have h2 := List.mem_filter.mp h1
    have h3 := List.mem_filter.mp h2.1
    refine ⟨?_, h3.2⟩
    simpa using h2.2
  · rw [list_created_files_handler, List.length_take]
    exact min_le_left _ _
  · exact ((List.take_sublist _ _).trans (List.filter_sublist _)).trans (List.filter_sublist _)
  · intro f hf
    have h1 := (List.take_sublist _ _).subset hf
    have h2 := List.mem_filter.mp h1
    have h3 := List.mem_filter.mp h2.1
    have h4 : strContains f ("node_modules") = false ∧ strContains f (".git") = false := by
      simpa using h2.2
    exact ⟨h4.1, h4.2, h3.2⟩

/-- Witness for C9: the amended listing properties at a one-file
traversal. -/
theorem C9_witness :
    strContains ("/tmp/a.py") ("generate.py") = false ∧
    hasSimpleExt ("/tmp/a.py") = true :=
  (C9_listing [("/tmp/a.py")]).2.2.1 ("/tmp/a.py") (by decide)

/-- Witness for C2: the destroy count at the all-success oracle. -/
theorem C2_witness :
    countEvent .kill (simple_process_task simpleEnvOk tdHello).snd.calls =
      (if (simple_process_task simpleEnvOk tdHello).snd.created = true then 1 else 0) :=
  (C2_destroy_exactly_once simpleEnvOk handlerEnvOk tdHello).1

/-- Witness for C3: the delete policy at a concrete raw-body message. -/
theorem C3_witness :
    (e2b_handle_message handlerEnvOk (Except.ok ()) (Except.ok ())
        (MsgBody.raw ("oops"))).snd = true ↔
      (Except.ok () : Except PyErr Unit) = Except.ok () :=
  (C3_delete_policy simpleEnvOk (Except.ok ()) (Except.ok ())
    (MsgBody.raw ("oops")) handlerEnvOk (Except.ok ())).2

/-- Witness for C4: the malformed-body behavior at a concrete body. -/
theorem C4_witness :
    (process_sqs_message handlerEnvOk (Except.ok ()) (MsgBody.raw ("oops"))).status =
      ("failed") :=
  (C4_malformed_body handlerEnvOk (Except.ok ()) ("oops")).2.1

/-- Witness for C8: the two-tier refinement at a concrete file set and read
oracle. -/
theorem C8_witness :
    get_main_file_content (fun p => if p = "/tmp/main.py" then some ("M") else none)
        [("/tmp/main.py")] =
      read_primary_spec (fun p => if p = "/tmp/main.py" then some ("M") else none)
        [("/tmp/main.py")] :=
  C8_two_tier_selection (fun p => if p = "/tmp/main.py" then some ("M") else none)
    [("/tmp/main.py")]

/-- Witness for C10: a failing kill at the all-success oracle leaves the
returned result unchanged. -/
theorem C10_witness :
    (simple_process_task { simpleEnvOk with kill := Except.error (PyErr.exc ("kill failed")) }
        tdHello).fst = (simple_process_task simpleEnvOk tdHello).fst :=
  (C10_destroy_error_ignored simpleEnvOk handlerEnvOk tdHello
    (Except.error (PyErr.exc ("kill failed")))).1

end PWC
